import Mathlib

/-!
Verification of the protofsm state-machine driver (`src/protofsm/state_machine.go`)
and the RBF cooperative-close protocol states
(`src/lnwallet/chancloser/rbf_coop_states.go`).

The Go code is shallowly embedded: pure functions become Lean functions, the
driver's event loop becomes explicit state passing over an input list, and the
fallible adapter boundary returns `Except String`.  Concurrency-only aspects
(goroutines spawned for predicate polling and notification waiting, channel
select timing) are outside the functional embedding; where a Go function spawns
a detached goroutine and returns, the embedding models the returned value and
the synchronous adapter submissions it made, which is what the claims below are
about.
-/

/-! ### Placeholders for opaque external library types.

These types come from btcd/lnwire/chainntnfs, which are external collaborators
(spec section 1).  The FSM code never inspects their contents, so any inhabited
type is a faithful model; we wrap plain data so distinct values exist. -/

/-- Opaque stand-in for `btcec.PublicKey`. -/
abbrev PublicKey := Nat

/-- Opaque stand-in for `lnwire.Message`. -/
abbrev WireMsg := Nat

/-- Opaque stand-in for `wire.OutPoint` (txid hash plus output index). -/
structure OutPoint where
  hash : Nat
  index : Nat
deriving DecidableEq, Repr

/-- Opaque stand-in for `chainhash.Hash`. -/
abbrev Hash := Nat

/-- Opaque stand-in for `wire.MsgTx`: a transaction as raw bytes. -/
structure MsgTx where
  txBytes : List Nat
deriving DecidableEq, Repr

namespace protofsm

/-! ### Emitted events and state transitions (state_machine.go lines 23-45). -/

/-- `EmittedEvent`: events emitted by a state transition; an optional internal
event routed back to the state, and optional external daemon events.
(`fn.Option` becomes `Option`; `DaemonEventSet` is a list of daemon events,
abstracted here by the type parameter `D`.) -/
structure EmittedEvent (E D : Type) where
  InternalEvent : Option E
  ExternalEvents : Option (List D)

/-- `StateTransition`: the next state to go to, and the set of events to emit.
The Go `State` interface value is abstracted by the state type parameter `S`;
its `ProcessEvent` method becomes an explicit transition function parameter. -/
structure StateTransition (S E D : Type) where
  NextState : S
  NewEvents : Option (EmittedEvent E D)

/-- The external events of a transition: `NewEvents` then `ExternalEvents`,
each `fn.Option` collapsing to the empty set when absent (the two
`fn.MapOptionZ` layers of `applyEvents`). -/
def externalsOf {S E D : Type} (tr : StateTransition S E D) : List D :=
  match tr.NewEvents with
  | none => []
  | some ev => ev.ExternalEvents.getD []

/-- The internal events of a transition: at most one (`InternalEvent.WhenSome`
enqueues a single event). -/
def internalsOf {S E D : Type} (tr : StateTransition S E D) : List E :=
  match tr.NewEvents with
  | none => []
  | some ev => ev.InternalEvent.toList

/-! ### Daemon events and their execution (state_machine.go lines 82-539).

The concrete daemon event variants live in `protofsm/daemon_events.go`, which
is not under `src/`; their shape is modelled from the spec (section 3,
"Entity: DaemonEffect") and from the field accesses `executeDaemonEvent`
makes (`TargetPeer`, `Msgs`, `SendWhen`, `PostSendEvent`, `ChanPoint`, `Tx`,
`Label`, `OutPoint`, `PkScript`, `HeightHint`, `PostSpendEvent`, `Txid`,
`NumConfs`, `PostConfEvent`). -/

/-- Modelled from the spec: `SendMsg { peer, msgs, send_when, post_send }`
(spec section 3); field names follow the uses in `executeDaemonEvent`.
`SendPredicate` (`func() bool`) is modelled as `Unit → Bool`. -/
structure SendMsgEvent (E : Type) where
  TargetPeer : PublicKey
  Msgs : List WireMsg
  SendWhen : Option (Unit → Bool)
  PostSendEvent : Option E

/-- Modelled from the spec: `DisableChannel { chan_point }`. -/
structure DisableChannelEvent where
  ChanPoint : OutPoint

/-- Modelled from the spec: `BroadcastTxn { tx, label }`. -/
structure BroadcastTxn where
  Tx : MsgTx
  Label : String

/-- Modelled from the spec:
`RegisterSpend { outpoint, script, height_hint, post_spend }`. -/
structure RegisterSpend (E : Type) where
  OutPoint : OutPoint
  PkScript : List Nat
  HeightHint : Nat
  PostSpendEvent : Option E

/-- Modelled from the spec:
`RegisterConf { txid, script, num_confs (default 1), height_hint, post_conf }`.
`NumConfs` is an `fn.Option[uint32]` (read with `UnwrapOr(1)`). -/
structure RegisterConf (E : Type) where
  Txid : Hash
  PkScript : List Nat
  NumConfs : Option Nat
  HeightHint : Nat
  PostConfEvent : Option E

/-- Modelled from the spec: the `DaemonEvent` tagged variant, one constructor
per effect kind (the five cases of `executeDaemonEvent`'s type switch). -/
inductive DaemonEvent (E : Type)
  | sendMsg (ev : SendMsgEvent E)
  | disableChannel (ev : DisableChannelEvent)
  | broadcastTxn (ev : BroadcastTxn)
  | registerSpend (ev : RegisterSpend E)
  | registerConf (ev : RegisterConf E)

/-- The `DaemonAdapters` interface (state_machine.go lines 85-116): the I/O
boundary.  The notification-channel payloads of `RegisterConfirmationsNtfn` /
`RegisterSpendNtfn` are consumed only inside detached goroutines, so the
embedding keeps just the `error` component of their results. -/
structure DaemonAdapters where
  SendMessages : PublicKey → List WireMsg → Except String Unit
  BroadcastTransaction : MsgTx → String → Except String Unit
  DisableChannel : OutPoint → Except String Unit
  RegisterConfirmationsNtfn : Hash → List Nat → Nat → Nat → Except String Unit
  RegisterSpendNtfn : OutPoint → List Nat → Nat → Except String Unit

/-- A record of one synchronous submission to the daemon adapters, used to
observe the order of adapter calls. -/
inductive AdapterCall
  | sendMessages (peer : PublicKey) (msgs : List WireMsg)
  | broadcastTransaction (tx : MsgTx) (label : String)
  | disableChannel (op : OutPoint)
  | registerConfirmationsNtfn (txid : Hash) (pkScript : List Nat)
      (numConfs heightHint : Nat)
  | registerSpendNtfn (op : OutPoint) (pkScript : List Nat) (heightHint : Nat)

/-- `StateMachine.executeDaemonEvent` (state_machine.go lines 333-539).
Returns the adapter submissions made synchronously, and the error returned to
the caller (`none` for a nil error).  Goroutines spawned for predicated sends,
post-send events and notification waiting are detached and not part of the
returned value.

Faithful to the source, including its final line: every case except
`registerConf` ends in an explicit `return`; the `registerConf` case does not,
so after a successful registration control falls out of the type switch and
reaches `return fmt.Errorf("unknown daemon event: %T", event)`. -/
def executeDaemonEvent {E : Type} (ad : DaemonAdapters) :
    DaemonEvent E → List AdapterCall × Option String
  | .sendMsg ev =>
    match ev.SendWhen with
    | none =>
      -- No SendWhen predicate: send right away (sendAndCleanUp).
      match ad.SendMessages ev.TargetPeer ev.Msgs with
      | .error e => ([.sendMessages ev.TargetPeer ev.Msgs],
          some ("unable to send msgs: " ++ e))
      | .ok _ => ([.sendMessages ev.TargetPeer ev.Msgs], none)
    | some _ =>
      -- A SendWhen predicate: a polling goroutine is spawned; the call
      -- itself returns nil with no synchronous submission.
      ([], none)
  | .disableChannel ev =>
    match ad.DisableChannel ev.ChanPoint with
    | .error e => ([.disableChannel ev.ChanPoint],
        some ("unable to disable channel: " ++ e))
    | .ok _ => ([.disableChannel ev.ChanPoint], none)
  | .broadcastTxn ev =>
    match ad.BroadcastTransaction ev.Tx ev.Label with
    | .error e => ([.broadcastTransaction ev.Tx ev.Label],
        some ("unable to broadcast txn: " ++ e))
    | .ok _ => ([.broadcastTransaction ev.Tx ev.Label], none)
  | .registerSpend ev =>
    match ad.RegisterSpendNtfn ev.OutPoint ev.PkScript ev.HeightHint with
    | .error e => ([.registerSpendNtfn ev.OutPoint ev.PkScript ev.HeightHint],
        some ("unable to register spend: " ++ e))
    | .ok _ => ([.registerSpendNtfn ev.OutPoint ev.PkScript ev.HeightHint],
        none)
  | .registerConf ev =>
    -- numConfs := daemonEvent.NumConfs.UnwrapOr(1)
    let numConfs := ev.NumConfs.getD 1
    match ad.RegisterConfirmationsNtfn ev.Txid ev.PkScript numConfs
        ev.HeightHint with
    | .error e =>
      ([.registerConfirmationsNtfn ev.Txid ev.PkScript numConfs ev.HeightHint],
        some ("unable to register conf: " ++ e))
    | .ok _ =>
      -- This case of the Go switch does not return; control falls through to
      -- the trailing `return fmt.Errorf("unknown daemon event: %T", event)`.
      ([.registerConfirmationsNtfn ev.Txid ev.PkScript numConfs ev.HeightHint],
        some "unknown daemon event: *protofsm.RegisterConf")

/-! ### The inner driver `applyEvents` (state_machine.go lines 541-653).

The loop is parametrised by the transition function `pe` (the current state's
`ProcessEvent`, with the immutable environment already applied) and by the
effect executor `ex` (in the source, `s.executeDaemonEvent`; `ex` returns the
adapter submissions the effect makes plus the error returned).  The loop can
grow its own queue, so the embedding carries explicit fuel; every claim is
stated for arbitrary fuel. -/

/-- The result of a run of `applyEvents`: the state returned, the adapter
submissions in order, the states published to subscribers in commit order
(`NotifySubscribers`), and the error returned (`none` for nil). -/
structure ApplyResult (S C Err : Type) where
  finalState : S
  calls : List C
  notified : List S
  error : Option Err
deriving DecidableEq, Repr

/-- The `for _, dEvent := range dEvents` loop of `applyEvents` (lines 591-598):
execute each daemon event in emission order, aborting on the first error. -/
def runEffects {D C Err : Type} (ex : D → List C × Option Err) :
    List D → List C × Option Err
  | [] => ([], none)
  | d :: ds =>
    match ex d with
    | (calls, some err) => (calls, some err)
    | (calls, none) =>
      match runEffects ex ds with
      | (rcalls, rerr) => (calls ++ rcalls, rerr)

/-- `StateMachine.applyEvents` (lines 544-653), generalised to start from an
arbitrary FIFO queue (the source seeds the queue with the single new event;
see `applyEvents` below).  Per dequeued event: run `ProcessEvent`; on error
return the current (last committed) state with the error; otherwise execute
the emitted daemon events in order (aborting, uncommitted, on the first
error), enqueue the emitted internal event at the tail of the queue, commit
`NextState`, notify subscribers, and continue. -/
def applyEventsAux {S E D C Err : Type}
    (pe : S → E → Except Err (StateTransition S E D))
    (ex : D → List C × Option Err) :
    Nat → S → List E → ApplyResult S C Err
  | 0, st, _ => ⟨st, [], [], none⟩
  | _ + 1, st, [] => ⟨st, [], [], none⟩
  | fuel + 1, st, e :: rest =>
    match pe st e with
    | .error err => ⟨st, [], [], some err⟩
    | .ok tr =>
      match runEffects ex (externalsOf tr) with
      | (calls, some err) => ⟨st, calls, [], some err⟩
      | (calls, none) =>
        let r := applyEventsAux pe ex fuel tr.NextState
          (rest ++ internalsOf tr)
        ⟨r.finalState, calls ++ r.calls, tr.NextState :: r.notified, r.error⟩

/-- The last state committed during a burst, given the sequence of committed
(subscriber-notified) states, or the given starting state when the burst
committed nothing. -/
def lastCommitted {S : Type} (init : S) : List S → S
  | [] => init
  | a :: rest => lastCommitted a rest

/-- `applyEvents` proper: the queue starts as `fn.NewQueue(newEvent)`. -/
def applyEvents {S E D C Err : Type}
    (pe : S → E → Except Err (StateTransition S E D))
    (ex : D → List C × Option Err) (fuel : Nat) (st : S) (newEvent : E) :
    ApplyResult S C Err :=
  applyEventsAux pe ex fuel st [newEvent]

/-! ### The main loop `driveMachine` (state_machine.go lines 655-727). -/

/-- One input consumed by the driver's select loop: a new external event from
the `events` channel, or a state query from the `stateQuery` channel. -/
inductive DriverInput (E : Type)
  | extEvent (e : E)
  | stateQuery

/-- The observable outcome of a run of the driver loop over a finite input
sequence: the driver's current state afterwards, how many times the
environment's `CleanUp` hook ran, the errors forwarded to the configured
`ErrorReporter`, the replies sent to state queries, and whether the driver
tore itself down (`go s.Stop(); return`). -/
structure DriveResult (S Err : Type) where
  finalState : S
  cleanups : Nat
  reported : List Err
  queryReplies : List S
  selfStopped : Bool
deriving DecidableEq, Repr

/-- `StateMachine.driveMachine` (lines 658-727) over a finite input sequence.
On a new event: run `applyEvents`; on error, report it to the `ErrorReporter`
and tear the machine down (remaining inputs are never consumed); on success,
if the new state `IsTerminal()` call the environment's `CleanUp` — and then
keep looping (the source has no `return` in the terminal branch).  On a state
query: reply with the current state.  (The initial `InitEvent` execution and
initial-state notification precede the loop and are independent of the claims
below.) -/
def driveMachineLoop {S E D C Err : Type}
    (pe : S → E → Except Err (StateTransition S E D))
    (ex : D → List C × Option Err) (isTerminal : S → Bool) (fuel : Nat) :
    S → List (DriverInput E) → DriveResult S Err
  | st, [] => ⟨st, 0, [], [], false⟩
  | st, .stateQuery :: rest =>
    let r := driveMachineLoop pe ex isTerminal fuel st rest
    ⟨r.finalState, r.cleanups, r.reported, st :: r.queryReplies,
      r.selfStopped⟩
  | st, .extEvent e :: rest =>
    let ar := applyEvents pe ex fuel st e
    match ar.error with
    | some err => ⟨ar.finalState, 0, [err], [], true⟩
    | none =>
      let c := if isTerminal ar.finalState then 1 else 0
      let r := driveMachineLoop pe ex isTerminal fuel ar.finalState rest
      ⟨r.finalState, c + r.cleanups, r.reported, r.queryReplies,
        r.selfStopped⟩

/-! ### `CurrentState`, `CanHandle` and `SendMessage`
(state_machine.go lines 243-302). -/

/-- `StateMachine.CurrentState` (lines 292-302): the query is offered to the
driver with `fn.SendOrQuit(s.stateQuery, query, s.quit)`; if the quit signal
wins the select the call returns the shutting-down error, otherwise the
driver's reply (its current state, per the `stateQuery` branch of
`driveMachineLoop`) is received.  (`RecvOrTimeout`'s one-second real-time
bound is not part of the functional model.) -/
def CurrentState {S : Type} (quitSignaled : Bool) (driverReply : S) :
    Except String S :=
  if quitSignaled then .error "state machine is shutting down"
  else .ok driverReply

/-- The `MsgMapper` interface: a single capability
`MapMsg(msg) -> fn.Option[Event]`; a pure function, hence deterministic. -/
def MsgMapper (E : Type) := WireMsg → Option E

/-- `StateMachine.CanHandle` (lines 245-250):
`fn.MapOptionZ(cfgMapper, fun mapper => mapper.MapMsg(msg).IsSome())`, whose
zero value for a missing mapper is `false`. -/
def CanHandle {E : Type} (cfgMapper : Option (MsgMapper E))
    (msg : WireMsg) : Bool :=
  match cfgMapper with
  | none => false
  | some mapper => (mapper msg).isSome

/-- The result of `SendMessage`: the boolean returned, plus the events handed
to `SendEvent` (so the claim about what gets forwarded is observable). -/
structure SendMessageResult (E : Type) where
  processed : Bool
  sentEvents : List E
deriving DecidableEq, Repr

/-- `StateMachine.SendMessage` (lines 261-289): false when no mapper is
configured; otherwise map the message, and when some event comes out, send it
via `SendEvent` and set `processed`. -/
def SendMessage {E : Type} (cfgMapper : Option (MsgMapper E))
    (msg : WireMsg) : SendMessageResult E :=
  match cfgMapper with
  | none => ⟨false, []⟩
  | some mapper =>
    match mapper msg with
    | some event => ⟨true, [event]⟩
    | none => ⟨false, []⟩

end protofsm

namespace chancloser

/-!
### RBF cooperative-close protocol states
(`src/lnwallet/chancloser/rbf_coop_states.go`).

The state and event structs are embedded field by field.  The source's
unexported `fromState` / `toState` / `prevState` / `nextState` /
`inputEvents` / `transitionEvent(s)` / `outputEvent` / `outputDaemonEvents`
fields are never read or written anywhere in the file — they are type-level
documentation of the state graph (see the source TODO
"remove these? just put as comments?") — and are omitted, which also avoids
the pointer cycles they would otherwise create.

`lnwire.MilliSatoshi`, `lnwire.Sig`, `lnwire.ClosingSig`,
`lnwire.ClosingComplete`, `chainfee.SatPerVByte` and `btcutil.Amount` are
external lnd/btcd types not under `src/`; they are modelled as plain numeric
wrappers.
-/

/-- Millisatoshi balance (`lnwire.MilliSatoshi`, a `uint64`). -/
abbrev MilliSatoshi := Nat

/-- Modelled from the spec: `lnwire.MilliSatoshi.ToSatoshis` (the `lnwire`
package is not under `src/`); the spec states balances and fees in satoshis,
and a millisatoshi amount truncates to whole satoshis.  The result is the
`btcutil.Amount` (an `int64`) used in the fee and dust comparisons. -/
def MilliSatoshi.ToSatoshis (m : MilliSatoshi) : Int :=
  (m / 1000 : Nat)

/-- Delivery script bytes (`lnwire.DeliveryAddress`). -/
abbrev DeliveryAddress := List Nat

/-- Fee rate in sat/vB (`chainfee.SatPerVByte`). -/
abbrev SatPerVByte := Nat

/-- Opaque stand-in for `lnwire.Sig`. -/
abbrev Sig := Nat

/-- Opaque stand-in for the `lnwire.ClosingSig` wire message. -/
structure ClosingSig where
  raw : Nat

/-- Opaque stand-in for the `lnwire.ClosingComplete` wire message. -/
structure ClosingComplete where
  raw : Nat

/-- `ShutdownBalances` (lines 135-143): local+remote balance once the channel
has been fully flushed. -/
structure ShutdownBalances where
  LocalBalance : MilliSatoshi
  RemoteBalance : MilliSatoshi

/-- `ShutdownScripts` (lines 397-407): the delivery scripts each side's
settled funds go to. -/
structure ShutdownScripts where
  LocalDeliveryScript : DeliveryAddress
  RemoteDeliveryScript : DeliveryAddress

/-! #### Protocol events (lines 51-206).

Each event is a struct; `ProtocolEvent` is the sealed interface over them.
The omitted annotation fields are as described above. -/

/-- `SpendEvent`: a transaction spending the funding outpoint confirmed. -/
structure SpendEvent where
  Tx : MsgTx
  BlockHeight : Nat

/-- `SendShutdown`: the user wishes to co-op close the channel. -/
structure SendShutdown where
  IdealFeeRate : SatPerVByte
  DeliveryAddr : Option DeliveryAddress

/-- `ShutdownReceived`: we received a shutdown message. -/
structure ShutdownReceived where
  BlockHeight : Nat
  ShutdownScript : DeliveryAddress

/-- `ShutdownComplete`: the channel has been fully shut down. -/
structure ShutdownComplete where

/-- `ChannelFlushed`: the channel has been fully flushed. -/
structure ChannelFlushed extends ShutdownBalances where
  FreshFlush : Bool

/-- `SendOfferEvent`: self-triggered event kicking off our signing offer. -/
structure SendOfferEvent where
  TargetFeeRate : SatPerVByte

/-- `LocalSigReceived`: the remote party's signature for our offer. -/
structure LocalSigReceived where
  SigMsg : ClosingSig

/-- `OfferReceivedEvent`: an offer received from the remote party. -/
structure OfferReceivedEvent where
  SigMsg : ClosingComplete

/-- The sealed `ProtocolEvent` interface (lines 51-66): one constructor per
implementing struct. -/
inductive ProtocolEvent
  | spendEvent (e : SpendEvent)
  | sendShutdown (e : SendShutdown)
  | shutdownReceived (e : ShutdownReceived)
  | shutdownComplete (e : ShutdownComplete)
  | channelFlushed (e : ChannelFlushed)
  | sendOfferEvent (e : SendOfferEvent)
  | localSigReceived (e : LocalSigReceived)
  | offerReceivedEvent (e : OfferReceivedEvent)

/-! #### Close terms, dust and fee checks (lines 490-550). -/

/-- `CloseChannelTerms` (lines 490-495): balances plus scripts. -/
structure CloseChannelTerms extends ShutdownBalances, ShutdownScripts

/-- A close-transaction output (`wire.TxOut`). -/
structure TxOut where
  PkScript : DeliveryAddress
  Value : Int

/-- The inner `deriveTxOut` closure of `DeriveCloseTxOuts` (lines 502-512):
a tx out exists exactly when the balance strictly exceeds
`lnwallet.DustLimitForSize(len(pkScript))`.  `DustLimitForSize` lives in the
`lnwallet` package, not under `src/`, so it is passed as a parameter. -/
def deriveTxOut (dustLimitForSize : Nat → Int) (balance : Int)
    (pkScript : DeliveryAddress) : Option TxOut :=
  let dustLimit := dustLimitForSize pkScript.length
  if balance > dustLimit then
    some { PkScript := pkScript, Value := balance }
  else
    none

/-- `CloseChannelTerms.DeriveCloseTxOuts` (lines 501-524): the local and
remote tx outs for the close transaction; a dust output is `none`. -/
def CloseChannelTerms.DeriveCloseTxOuts (dustLimitForSize : Nat → Int)
    (c : CloseChannelTerms) : Option TxOut × Option TxOut :=
  (deriveTxOut dustLimitForSize c.LocalBalance.ToSatoshis
      c.LocalDeliveryScript,
    deriveTxOut dustLimitForSize c.RemoteBalance.ToSatoshis
      c.RemoteDeliveryScript)

/-- `CloseChannelTerms.RemoteAmtIsDust` (lines 527-531). -/
def CloseChannelTerms.RemoteAmtIsDust (dustLimitForSize : Nat → Int)
    (c : CloseChannelTerms) : Bool :=
  decide (c.RemoteBalance.ToSatoshis <
    dustLimitForSize c.RemoteDeliveryScript.length)

/-- `CloseChannelTerms.LocalAmtIsDust` (lines 534-538). -/
def CloseChannelTerms.LocalAmtIsDust (dustLimitForSize : Nat → Int)
    (c : CloseChannelTerms) : Bool :=
  decide (c.LocalBalance.ToSatoshis <
    dustLimitForSize c.LocalDeliveryScript.length)

/-- `CloseChannelTerms.LocalCanPayFees` (lines 542-544). -/
def CloseChannelTerms.LocalCanPayFees (c : CloseChannelTerms)
    (absoluteFee : Int) : Bool :=
  decide (c.LocalBalance.ToSatoshis ≥ absoluteFee)

/-- `CloseChannelTerms.RemoteCanPayFees` (lines 548-550). -/
def CloseChannelTerms.RemoteCanPayFees (c : CloseChannelTerms)
    (absoluteFee : Int) : Bool :=
  decide (c.RemoteBalance.ToSatoshis ≥ absoluteFee)

/-- Modelled from the spec: `dust_limit_for_size(script_len)`, the
script-length-dependent dust threshold (`lnwallet.DustLimitForSize`, not
under `src/`).  The spec fixes only that the threshold is a function of the
script length; 546 satoshis (the common default relay dust limit) is used as
a concrete representative value.  Every theorem below that depends on the
threshold is stated for an arbitrary threshold function; this value only
instantiates concrete counterexamples. -/
def dustLimitForSizeModel : Nat → Int := fun _ => 546

/-! #### Protocol states and routing (lines 341-730). -/

/-- `ChannelActive` (lines 383-387): the base state; no behavioural fields in
this file. -/
structure ChannelActive where

/-- `ShutdownPending` (lines 413-426). -/
structure ShutdownPending extends ShutdownScripts where
  IdealFeeRate : Option SatPerVByte

/-- `ChannelFlushing` (lines 439-457). -/
structure ChannelFlushing extends ShutdownScripts where
  EarlyRemoteOffer : Option OfferReceivedEvent
  IdealFeeRate : Option SatPerVByte

/-- `LocalCloseStart` (lines 555-561). -/
structure LocalCloseStart extends CloseChannelTerms where
  targetFeeRate : SatPerVByte

/-- `LocalOfferSent` (lines 590-609). -/
structure LocalOfferSent extends CloseChannelTerms where
  ProposedFee : Int
  ProposedFeeRate : SatPerVByte
  LocalSig : Sig

/-- `ClosePending` (lines 638-650). -/
structure ClosePending where
  CloseTx : MsgTx
  FeeRate : SatPerVByte

/-- `CloseFin` (lines 673-678). -/
structure CloseFin where
  ConfirmedTx : MsgTx

/-- `RemoteCloseStart` (lines 690-696). -/
structure RemoteCloseStart extends CloseChannelTerms where
  peerPub : PublicKey

/-- The `AsymmetricPeerState` interface (lines 359-365): the protocol states
of this file that implement `ShouldRouteTo`. -/
inductive AsymmetricPeerState
  | localCloseStart (s : LocalCloseStart)
  | localOfferSent (s : LocalOfferSent)
  | remoteCloseStart (s : RemoteCloseStart)
  | closePending (s : ClosePending)

/-- `DualPeerState` (lines 724-730): the local and remote sub-states of the
negotiation composite. -/
structure DualPeerState where
  LocalState : AsymmetricPeerState
  RemoteState : AsymmetricPeerState

/-- `ClosingNegotiation` (lines 472-480). -/
structure ClosingNegotiation where
  PeerState : DualPeerState

/-- The sealed `ProtocolState` interface (lines 341-373): one constructor per
implementing struct. -/
inductive ProtocolState
  | channelActive (s : ChannelActive)
  | shutdownPending (s : ShutdownPending)
  | channelFlushing (s : ChannelFlushing)
  | closingNegotiation (s : ClosingNegotiation)
  | localCloseStart (s : LocalCloseStart)
  | localOfferSent (s : LocalOfferSent)
  | remoteCloseStart (s : RemoteCloseStart)
  | closePending (s : ClosePending)
  | closeFin (s : CloseFin)

/-- `ChannelActive.IsTerminal` (lines 390-392). -/
def ChannelActive.IsTerminal (_ : ChannelActive) : Bool := false

/-- `ShutdownPending.IsTerminal` (lines 429-431). -/
def ShutdownPending.IsTerminal (_ : ShutdownPending) : Bool := false

/-- `ChannelFlushing.IsTerminal` (lines 463-465). -/
def ChannelFlushing.IsTerminal (_ : ChannelFlushing) : Bool := false

/-- `ClosingNegotiation.IsTerminal` (lines 483-485). -/
def ClosingNegotiation.IsTerminal (_ : ClosingNegotiation) : Bool := false

/-- `LocalCloseStart.IsTerminal` (lines 575-577). -/
def LocalCloseStart.IsTerminal (_ : LocalCloseStart) : Bool := false

/-- `LocalOfferSent.IsTerminal` (lines 626-628). -/
def LocalOfferSent.IsTerminal (_ : LocalOfferSent) : Bool := false

/-- `ClosePending.IsTerminal` (lines 667-669): returns `true`. -/
def ClosePending.IsTerminal (_ : ClosePending) : Bool := true

/-- `CloseFin.IsTerminal` (lines 684-686): returns `true`. -/
def CloseFin.IsTerminal (_ : CloseFin) : Bool := true

/-- `RemoteCloseStart.IsTerminal` (lines 713-715). -/
def RemoteCloseStart.IsTerminal (_ : RemoteCloseStart) : Bool := false

/-- Dynamic dispatch of the `IsTerminal` interface method over the sealed
state set. -/
def ProtocolState.IsTerminal : ProtocolState → Bool
  | .channelActive s => s.IsTerminal
  | .shutdownPending s => s.IsTerminal
  | .channelFlushing s => s.IsTerminal
  | .closingNegotiation s => s.IsTerminal
  | .localCloseStart s => s.IsTerminal
  | .localOfferSent s => s.IsTerminal
  | .remoteCloseStart s => s.IsTerminal
  | .closePending s => s.IsTerminal
  | .closeFin s => s.IsTerminal

/-- `LocalCloseStart.ShouldRouteTo` (lines 565-572): a type switch accepting
exactly `*SendOfferEvent`. -/
def LocalCloseStart.ShouldRouteTo (_ : LocalCloseStart)
    (event : ProtocolEvent) : Bool :=
  match event with
  | .sendOfferEvent _ => true
  | _ => false

/-- `LocalOfferSent.ShouldRouteTo` (lines 613-620): a type switch accepting
exactly `*LocalSigReceived`. -/
def LocalOfferSent.ShouldRouteTo (_ : LocalOfferSent)
    (event : ProtocolEvent) : Bool :=
  match event with
  | .localSigReceived _ => true
  | _ => false

/-- `ClosePending.ShouldRouteTo` (lines 654-661): a type switch accepting
exactly `*SpendEvent`. -/
def ClosePending.ShouldRouteTo (_ : ClosePending)
    (event : ProtocolEvent) : Bool :=
  match event with
  | .spendEvent _ => true
  | _ => false

/-- `RemoteCloseStart.ShouldRouteTo` (lines 700-707): a type switch accepting
exactly `*OfferReceivedEvent`. -/
def RemoteCloseStart.ShouldRouteTo (_ : RemoteCloseStart)
    (event : ProtocolEvent) : Bool :=
  match event with
  | .offerReceivedEvent _ => true
  | _ => false

/-- Spec-side discriminator: is the event a `SendOfferEvent`? -/
def ProtocolEvent.isSendOfferEvt : ProtocolEvent → Bool
  | .sendOfferEvent _ => true
  | _ => false

/-- Spec-side discriminator: is the event a `LocalSigReceived`? -/
def ProtocolEvent.isLocalSigReceivedEvt : ProtocolEvent → Bool
  | .localSigReceived _ => true
  | _ => false

/-- Spec-side discriminator: is the event an `OfferReceivedEvent`? -/
def ProtocolEvent.isOfferReceivedEvt : ProtocolEvent → Bool
  | .offerReceivedEvent _ => true
  | _ => false

end chancloser

namespace protofsm

/-! ### Concrete instances used to evaluate the driver lemmas on inputs. -/

/-- A concrete transition function on `Nat` states, events and effects: on
state `s` and event `e`, go to `s + e`, emit the internal event `e + 1` and
the external effects `[e, e + 10]`. -/
def stepW : Nat → Nat → Except String (StateTransition Nat Nat Nat) :=
  fun s e =>
    .ok { NextState := s + e,
          NewEvents := some { InternalEvent := some (e + 1),
                              ExternalEvents := some [e, e + 10] } }

/-- A concrete effect executor: effect `d` makes the single adapter
submission `d` and succeeds. -/
def execW : Nat → List Nat × Option String := fun d => ([d], none)

/-- The transition `stepW` yields on state `0` and event `1`. -/
def trW : StateTransition Nat Nat Nat :=
  { NextState := 1,
    NewEvents := some { InternalEvent := some 2,
                        ExternalEvents := some [1, 11] } }

/-- A concrete transition function that fails on every event. -/
def stepFailW : Nat → Nat → Except String (StateTransition Nat Nat Nat) :=
  fun _ _ => .error "process event failed"

/-- A concrete transition function on `Bool` states (`true` = terminal) that
moves to the terminal state on any event and emits nothing. -/
def stepTermW : Bool → Unit → Except String (StateTransition Bool Unit Unit) :=
  fun _ _ => .ok { NextState := true, NewEvents := none }

/-- A trivial effect executor for `Unit` effects. -/
def execUnitW : Unit → List Unit × Option String := fun _ => ([], none)

end protofsm

namespace protofsm

/-! ### Driver lemmas and claim theorems for the protofsm component. -/

/-- Helper invariant: the state `applyEvents` returns is always the last
committed (subscriber-notified) state, or the starting state when nothing
committed. -/
theorem applyEventsAux_finalState_eq_lastCommitted {S E D C Err : Type}
    (pe : S → E → Except Err (StateTransition S E D))
    (ex : D → List C × Option Err) :
    ∀ (fuel : Nat) (st : S) (queue : List E),
      (applyEventsAux pe ex fuel st queue).finalState
        = lastCommitted st (applyEventsAux pe ex fuel st queue).notified := by
  intro fuel
  induction fuel with
  | zero => intro st queue; rfl
  | succ n ih =>
    intro st queue
    cases queue with
    | nil => rfl
    | cons e rest =>
      cases hpe : pe st e with
      | error err => simp [applyEventsAux, hpe, lastCommitted]
      | ok tr =>
        cases hre : runEffects ex (externalsOf tr) with
        | mk calls effErr =>
          cases effErr with
          | some err => simp [applyEventsAux, hpe, hre, lastCommitted]
          | none =>
            simp only [applyEventsAux, hpe, hre]
            simp only [lastCommitted]
            exact ih tr.NextState (rest ++ internalsOf tr)

/-- Helper: when no effect fails, the adapter submissions of an effect list
are the concatenation, in emission order, of each effect's submissions. -/
theorem runEffects_eq_flatten {D C Err : Type} (ex : D → List C × Option Err) :
    ∀ (ds : List D), (runEffects ex ds).2 = none →
      (runEffects ex ds).1 = (ds.map (fun d => (ex d).1)).flatten := by
  intro ds
  induction ds with
  | nil => intro _; rfl
  | cons d rest ih =>
    intro h
    rcases hd : ex d with ⟨calls, err⟩
    cases err with
    | some e =>
      simp only [runEffects, hd] at h
      exact Option.noConfusion h
    | none =>
      rcases hr : runEffects ex rest with ⟨rcalls, rerr⟩
      cases rerr with
      | some e2 =>
        simp only [runEffects, hd, hr] at h
        exact Option.noConfusion h
      | none =>
        have hnone : (runEffects ex rest).2 = none := by rw [hr]
        have hrec := ih hnone
        rw [hr] at hrec
        simp only [runEffects, hd, hr, List.map_cons, List.flatten_cons]
        simp only at hrec
        rw [hrec]

/-- C5: within `applyEvents`, a transition that emits external effects has
them executed in emission order — the adapter submissions of the whole run
are those of this transition's effects (in order, each effect's submissions
before the next effect's) followed by those of the continuation — and all of
them are executed before the internal event emitted by this transition is
enqueued (at the tail of the FIFO queue, so internal events are processed in
emission order) or processed. -/
theorem applyEvents_effect_order {S E D C Err : Type}
    (pe : S → E → Except Err (StateTransition S E D))
    (ex : D → List C × Option Err) (fuel : Nat) (st : S) (e : E)
    (rest : List E) (tr : StateTransition S E D)
    (h1 : pe st e = .ok tr)
    (h2 : (runEffects ex (externalsOf tr)).2 = none) :
    applyEventsAux pe ex (fuel + 1) st (e :: rest) =
      { finalState := (applyEventsAux pe ex fuel tr.NextState
          (rest ++ internalsOf tr)).finalState,
        calls := (runEffects ex (externalsOf tr)).1
          ++ (applyEventsAux pe ex fuel tr.NextState
            (rest ++ internalsOf tr)).calls,
        notified := tr.NextState :: (applyEventsAux pe ex fuel tr.NextState
          (rest ++ internalsOf tr)).notified,
        error := (applyEventsAux pe ex fuel tr.NextState
          (rest ++ internalsOf tr)).error }
    ∧ (runEffects ex (externalsOf tr)).1
        = ((externalsOf tr).map (fun d => (ex d).1)).flatten := by
  constructor
  · cases hre : runEffects ex (externalsOf tr) with
    | mk calls effErr =>
      have he : effErr = none := by rw [hre] at h2; exact h2
      subst he
      simp only [applyEventsAux, h1, hre]
  · exact runEffects_eq_flatten ex (externalsOf tr) h2

/-- C5 witness: `applyEvents_effect_order` evaluated on the concrete machine
`stepW`/`execW` at state 0, event 1, fuel 1. -/
theorem applyEvents_effect_order_witness :
    stepW 0 1 = .ok trW
    ∧ (runEffects execW (externalsOf trW)).2 = none
    ∧ (applyEventsAux stepW execW (1 + 1) 0 (1 :: []) =
        { finalState := (applyEventsAux stepW execW 1 trW.NextState
            ([] ++ internalsOf trW)).finalState,
          calls := (runEffects execW (externalsOf trW)).1
            ++ (applyEventsAux stepW execW 1 trW.NextState
              ([] ++ internalsOf trW)).calls,
          notified := trW.NextState :: (applyEventsAux stepW execW 1
            trW.NextState ([] ++ internalsOf trW)).notified,
          error := (applyEventsAux stepW execW 1 trW.NextState
            ([] ++ internalsOf trW)).error }
      ∧ (runEffects execW (externalsOf trW)).1
          = ((externalsOf trW).map (fun d => (execW d).1)).flatten) :=
  ⟨rfl, rfl, applyEvents_effect_order stepW execW 1 0 1 [] trW rfl rfl⟩

/-- C6: if `ProcessEvent` (or the execution of one of its emitted effects)
returns an error, `applyEvents` aborts the burst returning the last committed
state with that error, the driver forwards the error to the configured
`ErrorReporter`, performs no cleanup, and the FSM shuts itself down without
consuming any further input. -/
theorem applyEvents_error_aborts {S E D C Err : Type}
    (pe : S → E → Except Err (StateTransition S E D))
    (ex : D → List C × Option Err) (isTerminal : S → Bool) (fuel : Nat)
    (st : S) (e : E) (rest : List (DriverInput E)) (err : Err)
    (h : (applyEvents pe ex fuel st e).error = some err) :
    driveMachineLoop pe ex isTerminal fuel st (.extEvent e :: rest) =
      { finalState := (applyEvents pe ex fuel st e).finalState,
        cleanups := 0,
        reported := [err],
        queryReplies := [],
        selfStopped := true }
    ∧ (applyEvents pe ex fuel st e).finalState
        = lastCommitted st (applyEvents pe ex fuel st e).notified := by
  constructor
  · simp only [driveMachineLoop, h]
  · exact applyEventsAux_finalState_eq_lastCommitted pe ex fuel st [e]

/-- C6 witness: `applyEvents_error_aborts` evaluated on the always-failing
machine `stepFailW` with a pending second event that is never consumed. -/
theorem applyEvents_error_aborts_witness :
    (applyEvents stepFailW execW 1 0 5).error = some "process event failed"
    ∧ (driveMachineLoop stepFailW execW (fun _ => false) 1 0
          [.extEvent 5, .extEvent 6] =
        { finalState := (applyEvents stepFailW execW 1 0 5).finalState,
          cleanups := 0,
          reported := ["process event failed"],
          queryReplies := [],
          selfStopped := true }
      ∧ (applyEvents stepFailW execW 1 0 5).finalState
          = lastCommitted 0 (applyEvents stepFailW execW 1 0 5).notified) :=
  ⟨rfl, applyEvents_error_aborts stepFailW execW (fun _ => false) 1 0 5
    [.extEvent 6] "process event failed" rfl⟩

/-- C2 (code bug): for a `RegisterConf` daemon event whose adapter
registration call succeeds, `executeDaemonEvent` does register the
confirmation notification with `num_confs` defaulting to 1 when unspecified —
but then, because the `*RegisterConf` case of the type switch has no
`return nil`, control falls through to
`return fmt.Errorf("unknown daemon event: %T", event)`. Evaluated here at a
concrete `RegisterConf` event with `NumConfs` unset and an adapter whose
registration succeeds: the registration call is made with `numConfs = 1` and
the "unknown daemon event" error is returned, contradicting the claim (and
the function's own doc comment, which reserves that error for an unknown
event type). -/
theorem executeDaemonEvent_RegisterConf_unknown_event :
    executeDaemonEvent
      { SendMessages := fun _ _ => .ok (),
        BroadcastTransaction := fun _ _ => .ok (),
        DisableChannel := fun _ => .ok (),
        RegisterConfirmationsNtfn := fun _ _ _ _ => .ok (),
        RegisterSpendNtfn := fun _ _ _ => .ok () }
      (DaemonEvent.registerConf
        ({ Txid := 7, PkScript := [0, 1], NumConfs := none,
           HeightHint := 100, PostConfEvent := none } : RegisterConf Unit))
    = ([AdapterCall.registerConfirmationsNtfn 7 [0, 1] 1 100],
        some "unknown daemon event: *protofsm.RegisterConf") := rfl

/-- C3 (code bug): the terminal branch of `driveMachine` calls the
environment's `CleanUp` but has no `return`, so the driver neither exits on a
terminal state nor bounds cleanup to once per lifetime.  Evaluated here on a
machine whose every transition lands in a terminal state: two external events
produce two cleanups, and the driver is still running (`selfStopped = false`)
afterwards — contradicting the claim (and the source's own comments, which
say a terminal state makes the state machine exit). -/
theorem driveMachine_cleanup_twice_no_exit :
    driveMachineLoop stepTermW execUnitW (fun b => b) 1 false
      [.extEvent (), .extEvent ()]
    = { finalState := true,
        cleanups := 2,
        reported := [],
        queryReplies := [],
        selfStopped := false } := rfl

/-- C8: the driver answers a state query with its last-committed state (the
fold of `applyEvents` over the events accepted so far), and when the quit
signal fires before the query is accepted, `CurrentState` returns the
shutting-down error instead of a state. -/
theorem CurrentState_last_committed_or_shutdown {S E D C Err : Type}
    (pe : S → E → Except Err (StateTransition S E D))
    (ex : D → List C × Option Err) (isTerminal : S → Bool) (fuel : Nat)
    (st : S) (es : List E)
    (h : (driveMachineLoop pe ex isTerminal fuel st
        (es.map DriverInput.extEvent)).selfStopped = false) :
    (driveMachineLoop pe ex isTerminal fuel st
        (es.map DriverInput.extEvent
          ++ [DriverInput.stateQuery])).queryReplies
      = [(driveMachineLoop pe ex isTerminal fuel st
          (es.map DriverInput.extEvent)).finalState]
    ∧ CurrentState true
        ((driveMachineLoop pe ex isTerminal fuel st
          (es.map DriverInput.extEvent)).finalState)
        = Except.error "state machine is shutting down"
    ∧ CurrentState false
        ((driveMachineLoop pe ex isTerminal fuel st
          (es.map DriverInput.extEvent)).finalState)
        = Except.ok ((driveMachineLoop pe ex isTerminal fuel st
          (es.map DriverInput.extEvent)).finalState) := by
  refine ⟨?_, rfl, rfl⟩
  induction es generalizing st with
  | nil => rfl
  | cons a rest ih =>
    simp only [List.map_cons, List.cons_append, driveMachineLoop] at h ⊢
    cases har : (applyEvents pe ex fuel st a).error with
    | some err => simp [har] at h
    | none =>
      simp only [har] at h ⊢
      exact ih ((applyEvents pe ex fuel st a).finalState) h

/-- C8 witness: `CurrentState_last_committed_or_shutdown` evaluated on the
concrete machine `stepW`/`execW` after one accepted event. -/
theorem CurrentState_last_committed_or_shutdown_witness :
    (driveMachineLoop stepW execW (fun _ => false) 1 0
        ([3].map DriverInput.extEvent)).selfStopped = false
    ∧ ((driveMachineLoop stepW execW (fun _ => false) 1 0
          ([3].map DriverInput.extEvent
            ++ [DriverInput.stateQuery])).queryReplies
        = [(driveMachineLoop stepW execW (fun _ => false) 1 0
            ([3].map DriverInput.extEvent)).finalState]
      ∧ CurrentState true
          ((driveMachineLoop stepW execW (fun _ => false) 1 0
            ([3].map DriverInput.extEvent)).finalState)
          = Except.error "state machine is shutting down"
      ∧ CurrentState false
          ((driveMachineLoop stepW execW (fun _ => false) 1 0
            ([3].map DriverInput.extEvent)).finalState)
          = Except.ok ((driveMachineLoop stepW execW (fun _ => false) 1 0
            ([3].map DriverInput.extEvent)).finalState)) :=
  ⟨rfl, CurrentState_last_committed_or_shutdown stepW execW (fun _ => false)
    1 0 [3] rfl⟩

/-- C7: for every wire message and any configured (deterministic) message
mapper, `CanHandle` returns true iff `SendMessage` returns true; with no
mapper configured both return false. -/
theorem CanHandle_iff_SendMessage {E : Type}
    (cfgMapper : Option (MsgMapper E)) (msg : WireMsg) :
    CanHandle cfgMapper msg = (SendMessage cfgMapper msg).processed
    ∧ CanHandle (none : Option (MsgMapper E)) msg = false
    ∧ (SendMessage (none : Option (MsgMapper E)) msg).processed = false := by
  refine ⟨?_, rfl, rfl⟩
  cases cfgMapper with
  | none => rfl
  | some mapper =>
    cases hm : mapper msg with
    | none => simp [CanHandle, SendMessage, hm]
    | some event => simp [CanHandle, SendMessage, hm]

end protofsm

namespace chancloser

/-! ### Claim theorems for the RBF close protocol states. -/

/-- C1 counterexample: `ClosePending.IsTerminal()` returns `true` in the
code (rbf_coop_states.go lines 667-669), not `false` as the claim states, so
`CloseFin` is not the only terminal state. -/
theorem ClosePending_IsTerminal_eq_true :
    ClosePending.IsTerminal { CloseTx := { txBytes := [] }, FeeRate := 0 }
      = true := rfl

/-- C1 (amended): `IsTerminal` returns true exactly for the `ClosePending`
and `CloseFin` states; every other protocol state returns false. -/
theorem IsTerminal_iff_ClosePending_or_CloseFin (s : ProtocolState) :
    s.IsTerminal = true ↔
      ((∃ c, s = ProtocolState.closePending c)
        ∨ (∃ c, s = ProtocolState.closeFin c)) := by
  cases s <;>
    simp [ProtocolState.IsTerminal, ChannelActive.IsTerminal,
      ShutdownPending.IsTerminal, ChannelFlushing.IsTerminal,
      ClosingNegotiation.IsTerminal, LocalCloseStart.IsTerminal,
      LocalOfferSent.IsTerminal, RemoteCloseStart.IsTerminal,
      ClosePending.IsTerminal, CloseFin.IsTerminal]

/-- Helper: `deriveTxOut` yields no output exactly when the balance does not
strictly exceed the dust limit for the script's length. -/
theorem deriveTxOut_eq_none_iff (d : Nat → Int) (b : Int)
    (s : DeliveryAddress) :
    deriveTxOut d b s = none ↔ b ≤ d s.length := by
  by_cases h : b > d s.length
  all_goals simp [deriveTxOut, h]
  all_goals omega

/-- C4 counterexample: close terms whose local settled balance (546 sat)
equals the dust limit for its script: the local output is not dust
(`LocalAmtIsDust` is false), yet `DeriveCloseTxOuts` omits it (the local tx
out is nil), so "included iff not dust" fails at the boundary. -/
theorem DeriveCloseTxOuts_dust_boundary :
    CloseChannelTerms.LocalAmtIsDust dustLimitForSizeModel
      { LocalBalance := 546000, RemoteBalance := 900000000,
        LocalDeliveryScript := List.replicate 22 0,
        RemoteDeliveryScript := List.replicate 22 0 } = false
    ∧ (CloseChannelTerms.DeriveCloseTxOuts dustLimitForSizeModel
        { LocalBalance := 546000, RemoteBalance := 900000000,
          LocalDeliveryScript := List.replicate 22 0,
          RemoteDeliveryScript := List.replicate 22 0 }).1 = none :=
  ⟨rfl, rfl⟩

/-- C4 (amended): for every dust-threshold function and close terms, a side's
output is dust iff its settled balance is strictly below the dust limit for
its script length (as claimed), while `DeriveCloseTxOuts` omits a side's
output iff its settled balance does not strictly exceed that dust limit —
so a non-dust output with balance exactly equal to the dust limit is still
omitted from the close transaction. -/
theorem AmtIsDust_lt_and_txOut_gt (dustLimitForSize : Nat → Int)
    (c : CloseChannelTerms) :
    (c.LocalAmtIsDust dustLimitForSize = true ↔
      c.LocalBalance.ToSatoshis
        < dustLimitForSize c.LocalDeliveryScript.length)
    ∧ ((c.DeriveCloseTxOuts dustLimitForSize).1 = none ↔
      c.LocalBalance.ToSatoshis
        ≤ dustLimitForSize c.LocalDeliveryScript.length)
    ∧ (c.RemoteAmtIsDust dustLimitForSize = true ↔
      c.RemoteBalance.ToSatoshis
        < dustLimitForSize c.RemoteDeliveryScript.length)
    ∧ ((c.DeriveCloseTxOuts dustLimitForSize).2 = none ↔
      c.RemoteBalance.ToSatoshis
        ≤ dustLimitForSize c.RemoteDeliveryScript.length) := by
  refine ⟨?_, ?_, ?_, ?_⟩
  · simp [CloseChannelTerms.LocalAmtIsDust]
  · exact deriveTxOut_eq_none_iff dustLimitForSize _ _
  · simp [CloseChannelTerms.RemoteAmtIsDust]
  · exact deriveTxOut_eq_none_iff dustLimitForSize _ _

/-- C9: for every absolute fee, `LocalCanPayFees` is true iff the local
settled balance (in satoshis) is at least the fee, and `RemoteCanPayFees` is
true iff the remote settled balance is at least the fee. -/
theorem CanPayFees_iff_balance_ge (c : CloseChannelTerms)
    (absoluteFee : Int) :
    (c.LocalCanPayFees absoluteFee = true ↔
      c.LocalBalance.ToSatoshis ≥ absoluteFee)
    ∧ (c.RemoteCanPayFees absoluteFee = true ↔
      c.RemoteBalance.ToSatoshis ≥ absoluteFee) := by
  constructor
  · simp [CloseChannelTerms.LocalCanPayFees]
  · simp [CloseChannelTerms.RemoteCanPayFees]

/-- C10: routing inside the negotiation composite is disjoint — for every
protocol event, the `ShouldRouteTo` predicates of a local sub-state
(`LocalCloseStart` or `LocalOfferSent`) and of the remote sub-state
(`RemoteCloseStart`) never both answer true; `LocalCloseStart` accepts
exactly `SendOfferEvent`, `LocalOfferSent` exactly `LocalSigReceived`, and
`RemoteCloseStart` exactly `OfferReceivedEvent`, so the local/remote
tie-breaking precedence is never exercised. -/
theorem ShouldRouteTo_disjoint (event : ProtocolEvent)
    (lcs : LocalCloseStart) (los : LocalOfferSent)
    (rcs : RemoteCloseStart) :
    ((lcs.ShouldRouteTo event && rcs.ShouldRouteTo event) = false)
    ∧ ((los.ShouldRouteTo event && rcs.ShouldRouteTo event) = false)
    ∧ lcs.ShouldRouteTo event = event.isSendOfferEvt
    ∧ los.ShouldRouteTo event = event.isLocalSigReceivedEvt
    ∧ rcs.ShouldRouteTo event = event.isOfferReceivedEvt := by
  cases event <;>
    simp [LocalCloseStart.ShouldRouteTo, LocalOfferSent.ShouldRouteTo,
      RemoteCloseStart.ShouldRouteTo, ProtocolEvent.isSendOfferEvt,
      ProtocolEvent.isLocalSigReceivedEvt, ProtocolEvent.isOfferReceivedEvt]

end chancloser
